import Mathlib

/-!
# TrackForge (`src/app.py`) — shallow embedding and verification

A shallow embedding of the single-file Flask task tracker `src/app.py`:
the `Task` data model, the today-view query, and the three mutating
request handlers (`add_task`, `mark_done`, `delete_task`), together with
proofs of the specification's claims about them.

Modelling choices:
* Calendar dates are encoded as natural numbers `y * 10000 + m * 100 + d`;
  this encoding is injective and order-preserving on valid dates, so
  `due_date <= today` and `due == date.today()` translate directly.
* `status` is kept as a `String` (the column is a string in the schema),
  so the SQL `ORDER BY status DESC` is the byte-wise string order, exactly
  as SQLite's default BINARY collation orders ASCII strings.
* Python falsiness of strings (`s or default`) is `s = ""`.
* `date.fromisoformat(date.today().isoformat())` equals `date.today()`,
  so the default branch of `due_raw` is collapsed to `today` directly.
* The database session is a list of rows plus the autoincrement counter.
-/

namespace TrackForge

/-- A calendar date, encoded as `y * 10000 + m * 100 + d`. -/
abbrev Date := Nat

/-- One row of the `task` table (class `Task` in `src/app.py`). -/
structure Task where
  id : Nat
  title : String
  source : Option String
  tags : String
  estimate_pomos : Nat
  actual_pomos : Nat
  due_date : Date
  status : String
  created_at : Date
  completed_at : Option Date
deriving Repr, DecidableEq

/-- The persistent store: the rows of the `task` table together with the
primary-key autoincrement counter. -/
structure Store where
  tasks : List Task
  nextId : Nat
deriving Repr, DecidableEq

/-- The empty database created by `db.create_all()` on first run. -/
def initialStore : Store := { tasks := [], nextId := 1 }

/-- The raw form fields of a POST `/add` request
(`request.form.get` yields `none` for a missing field). -/
structure AddForm where
  title : Option String
  source : Option String
  tags : Option String
  pomos : Option String
  due : Option String
deriving Repr, DecidableEq

/-- The two error kinds of the app: `get_or_404` aborts with HTTP 404,
and an unparsable due date raises `ValueError`, surfaced as a request
failure. -/
inductive Err where
  | notFound
  | invalidInput
deriving Repr, DecidableEq

/-- What a handler sends back on success: the mutating handlers redirect
to the today-view, the homepage renders the selected items. -/
inductive Response where
  | redirectTodayView
  | renderToday (items : List Task)
deriving Repr, DecidableEq

/-! ## Input normalization helpers (the expressions in `add_task`) -/

/-- Python `str.strip()` restricted to ASCII whitespace: drop leading
and trailing whitespace characters. -/
def pyStrip (s : String) : String :=
  ⟨((s.data.dropWhile Char.isWhitespace).reverse.dropWhile
      Char.isWhitespace).reverse⟩

/-- Python `str.isdigit` restricted to ASCII: nonempty and all `0-9`. -/
def pyIsDigit (s : String) : Bool :=
  !s.data.isEmpty && s.data.all Char.isDigit

/-- Value of an ASCII digit character. -/
def digitVal (c : Char) : Nat := c.toNat - '0'.toNat

/-- Python `int` on a string of ASCII digits. -/
def digitsToNat (s : String) : Nat :=
  s.data.foldl (fun n c => n * 10 + digitVal c) 0

/-- `pomos = int(pomos_raw) if pomos_raw.isdigit() else 1` where
`pomos_raw = request.form.get('pomos', '1') or '1'`. -/
def parsePomos (raw : Option String) : Nat :=
  let pomos_raw := raw.getD "1"
  let pomos_raw := if pomos_raw = "" then "1" else pomos_raw
  if pyIsDigit pomos_raw then digitsToNat pomos_raw else 1

/-- Gregorian leap year. -/
def isLeap (y : Nat) : Bool :=
  y % 4 == 0 && (y % 100 != 0 || y % 400 == 0)

/-- Number of days in month `m` of year `y`. -/
def daysInMonth (y m : Nat) : Nat :=
  if m == 2 then (if isLeap y then 29 else 28)
  else if m == 4 || m == 6 || m == 9 || m == 11 then 30
  else 31

/-- Python `datetime.date.fromisoformat` on the `YYYY-MM-DD` form the
date input produces: four digits, dash, two digits, dash, two digits,
with a calendar-valid year/month/day; `none` when the string does not
parse (the `ValueError` case). -/
def fromisoformat (s : String) : Option Date :=
  match s.data with
  | [y1, y2, y3, y4, h1, m1, m2, h2, d1, d2] =>
    if h1 = '-' ∧ h2 = '-' ∧
        (y1.isDigit && y2.isDigit && y3.isDigit && y4.isDigit &&
         m1.isDigit && m2.isDigit && d1.isDigit && d2.isDigit) then
      let y := digitVal y1 * 1000 + digitVal y2 * 100 + digitVal y3 * 10 + digitVal y4
      let m := digitVal m1 * 10 + digitVal m2
      let d := digitVal d1 * 10 + digitVal d2
      if 1 ≤ y && 1 ≤ m && m ≤ 12 && 1 ≤ d && d ≤ daysInMonth y m then
        some (y * 10000 + m * 100 + d)
      else none
    else none
  | _ => none

/-! ## The four request handlers -/

/-- Strict lexicographic order on character lists by code point: the
order SQLite's default BINARY collation gives ASCII text values. -/
def lexLt : List Char → List Char → Bool
  | [], [] => false
  | [], _ :: _ => true
  | _ :: _, [] => false
  | a :: as, b :: bs => a.toNat < b.toNat || (a == b && lexLt as bs)

/-- The ordering key of the today-view query:
`ORDER BY status DESC, id DESC` — `a` sorts no later than `b`:
strictly greater status string, or same status and no smaller id. -/
def viewOrder (a b : Task) : Prop :=
  lexLt b.status.data a.status.data = true ∨
    (a.status = b.status ∧ b.id ≤ a.id)

instance : DecidableRel viewOrder := fun a b => by
  unfold viewOrder; infer_instance

/-- The row filter of the today-view query:
`due_date <= today AND status IN ('today', 'scheduled')`. -/
def todayFilter (today : Date) (t : Task) : Bool :=
  t.due_date ≤ today && (t.status = "today" || t.status = "scheduled")

/-- `GET /` (`today_view` in `src/app.py`): filter by due date and
status, order by status descending then id descending, limit 3. -/
def todayItems (s : Store) (today : Date) : List Task :=
  (List.insertionSort viewOrder (s.tasks.filter (todayFilter today))).take 3

/-- The `GET /` handler: renders the selected items. -/
def today_view (s : Store) (today : Date) : Response :=
  .renderToday (todayItems s today)

/-- `title = request.form.get('title', '').strip() or 'Untitled Task'`. -/
def normTitle (raw : Option String) : String :=
  let t := pyStrip (raw.getD "")
  if t = "" then "Untitled Task" else t

/-- `source = request.form.get('source', '').strip() or None`. -/
def normSource (raw : Option String) : Option String :=
  let v := pyStrip (raw.getD "")
  if v = "" then none else some v

/-- `due_raw = request.form.get('due') or date.today().isoformat()` then
`due = date.fromisoformat(due_raw)`: a missing or falsy (empty) field
falls back to today's ISO string, which parses back to `today`; any
other string is parsed, raising on failure. -/
def parseDue (raw : Option String) (today : Date) : Except Err Date :=
  match raw with
  | none => pure today
  | some r =>
    if r = "" then pure today
    else match fromisoformat r with
      | some d => pure d
      | none => throw Err.invalidInput

/-- The row the `Task(...)` constructor call in `add_task` builds, given
the parsed due date and the autoincrement id the insert will assign. -/
def newTask (form : AddForm) (today : Date) (id : Nat) (due : Date) : Task :=
  { id := id
    title := normTitle form.title
    source := normSource form.source
    tags := pyStrip (form.tags.getD "")
    estimate_pomos := max 1 (min (parsePomos form.pomos) 8)
    actual_pomos := 0
    due_date := due
    status := if due = today then "today" else "scheduled"
    created_at := today
    completed_at := none }

/-- `POST /add` (`add_task` in `src/app.py`): normalize the form fields,
parse the due date, insert one row, redirect to the today-view. -/
def add_task (form : AddForm) (today : Date) (s : Store) :
    Except Err (Store × Response) := do
  let due ← parseDue form.due today
  pure ({ tasks := s.tasks ++ [newTask form today s.nextId due],
          nextId := s.nextId + 1 }, .redirectTodayView)

/-- `Task.query.get_or_404`: fetch a row by primary key, HTTP 404 when
absent. -/
def get_or_404 (s : Store) (task_id : Nat) : Except Err Task :=
  match s.tasks.find? (fun t => t.id == task_id) with
  | some t => pure t
  | none => throw Err.notFound

/-- The row update `t.status = 'done'; t.completed_at = date.today()`
applied to the row with the given primary key (other rows unchanged). -/
def updDone (task_id : Nat) (today : Date) (t : Task) : Task :=
  if t.id = task_id then
    { t with status := "done", completed_at := some today }
  else t

/-- `POST /done/<id>` (`mark_done` in `src/app.py`): 404 when the id is
unknown, otherwise set `status = 'done'`, stamp `completed_at`, commit,
redirect. -/
def mark_done (task_id : Nat) (today : Date) (s : Store) :
    Except Err (Store × Response) := do
  let _ ← get_or_404 s task_id
  pure ({ s with tasks := s.tasks.map (updDone task_id today) },
        .redirectTodayView)

/-- `POST /delete/<id>` (`delete_task` in `src/app.py`): 404 when the id
is unknown, otherwise remove the row permanently, commit, redirect. -/
def delete_task (task_id : Nat) (s : Store) :
    Except Err (Store × Response) := do
  let _ ← get_or_404 s task_id
  pure ({ s with tasks := s.tasks.filter (fun t => t.id ≠ task_id) },
        .redirectTodayView)

/-! ## The action system: any sequence of requests from the empty store -/

/-- One mutating request, together with the current date at which the
server handles it. -/
inductive Action where
  | add (form : AddForm) (today : Date)
  | done (task_id : Nat) (today : Date)
  | delete (task_id : Nat)
deriving Repr, DecidableEq

/-- Dispatch one request against the store. -/
def applyAction (a : Action) (s : Store) : Except Err (Store × Response) :=
  match a with
  | .add form today => add_task form today s
  | .done task_id today => mark_done task_id today s
  | .delete task_id => delete_task task_id s

/-- Store states reachable from the fresh database by successful
requests (a failed request does not change the store: the session is
never committed on the error paths). -/
inductive Reachable : Store → Prop where
  | init : Reachable initialStore
  | step {s s' : Store} {r : Response} (a : Action) :
      Reachable s → applyAction a s = .ok (s', r) → Reachable s'

/-- The per-row invariant of the data model: planned effort within the
1–8 guardrails, and `completed_at` set exactly when the task is done. -/
def TaskInv (t : Task) : Prop :=
  1 ≤ t.estimate_pomos ∧ t.estimate_pomos ≤ 8 ∧
    (t.completed_at ≠ none ↔ t.status = "done")

/-- The store invariant: every row satisfies the row invariant and has
a primary key below the autoincrement counter, and primary keys are
strictly increasing along the table. -/
def StoreInv (s : Store) : Prop :=
  (∀ t ∈ s.tasks, TaskInv t ∧ t.id < s.nextId) ∧
  s.tasks.Pairwise (fun a b => a.id < b.id)

/-! ## Spec-side definitions (from the specification's words, for
refinement comparison with the code's normalization) -/

/-- Spec §4.3: "pomos: parsed as integer if the raw string is all
digits, else defaults to 1; result clamped to [1,8]" — with a missing
or empty field yielding 1. -/
def specPomos (raw : Option String) : Nat :=
  match raw with
  | none => 1
  | some s =>
    if s ≠ "" ∧ s.data.all Char.isDigit then max 1 (min (digitsToNat s) 8)
    else 1

/-- Spec §4.3: "title: trimmed; empty → 'Untitled Task'" — with a
missing field counting as empty. -/
def specTitle (raw : Option String) : String :=
  match raw with
  | none => "Untitled Task"
  | some s => if pyStrip s = "" then "Untitled Task" else pyStrip s

/-- Spec §4.3: "source: trimmed; empty → absent". -/
def specSource (raw : Option String) : Option String :=
  match raw with
  | none => none
  | some s => if pyStrip s = "" then none else some (pyStrip s)

/-! ## Characterization lemmas for `add_task` -/

theorem data_isEmpty_false {v : String} (hv : v ≠ "") :
    v.data.isEmpty = false := by
  cases v with
  | mk l =>
    cases l with
    | nil => exact absurd rfl hv
    | cons c cs => rfl

theorem add_task_eq_ok {form : AddForm} {today : Date} {s s' : Store}
    {r : Response} :
    add_task form today s = .ok (s', r) ↔
      ∃ due, parseDue form.due today = .ok due ∧
        s' = { tasks := s.tasks ++ [newTask form today s.nextId due],
               nextId := s.nextId + 1 } ∧
        r = .redirectTodayView := by
  cases h : parseDue form.due today with
  | error e =>
    simp only [add_task, h, Bind.bind, Except.bind]
    constructor
    · intro hc; cases hc
    · rintro ⟨due, hdue, _⟩; cases hdue
  | ok due =>
    simp only [add_task, h, Bind.bind, Except.bind, pure, Except.pure]
    constructor
    · intro hc
      injection hc with hc
      exact ⟨due, rfl, congrArg Prod.fst hc.symm, congrArg Prod.snd hc.symm⟩
    · rintro ⟨due', hdue', hs', hr⟩
      injection hdue' with hdue'
      subst hdue'; subst hs'; subst hr; rfl

theorem add_task_eq_error {form : AddForm} {today : Date} {s : Store}
    {e : Err} :
    add_task form today s = .error e ↔ parseDue form.due today = .error e := by
  cases h : parseDue form.due today with
  | error e' =>
    simp only [add_task, h, Bind.bind, Except.bind]
    constructor
    · intro hc; injection hc with hc; simp [hc]
    · intro hc; injection hc with hc; simp [hc]
  | ok due =>
    simp only [add_task, h, Bind.bind, Except.bind, pure, Except.pure]
    constructor
    · intro hc; cases hc
    · intro hc; cases hc

theorem parseDue_eq_error {raw : Option String} {today : Date} {e : Err} :
    parseDue raw today = .error e ↔
      e = .invalidInput ∧
        ∃ v, raw = some v ∧ v ≠ "" ∧ fromisoformat v = none := by
  cases raw with
  | none =>
    simp only [parseDue, pure, Except.pure]
    constructor
    · intro hc; cases hc
    · rintro ⟨-, v, hv, -⟩; cases hv
  | some v =>
    by_cases hv : v = ""
    · subst hv
      simp only [parseDue, if_pos rfl, pure, Except.pure]
      constructor
      · intro hc; cases hc
      · rintro ⟨-, w, hw, hne, -⟩
        injection hw with hw; exact absurd hw.symm hne
    · cases hiso : fromisoformat v with
      | none =>
        simp only [parseDue, if_neg hv, hiso, throw, throwThe,
          MonadExceptOf.throw]
        constructor
        · intro hc; injection hc with hc
          exact ⟨hc.symm, v, rfl, hv, hiso⟩
        · rintro ⟨he, -⟩; simp [he]
      | some d =>
        simp only [parseDue, if_neg hv, hiso, pure, Except.pure]
        constructor
        · intro hc; cases hc
        · rintro ⟨-, w, hw, -, hnone⟩
          injection hw with hw; rw [← hw] at hnone
          rw [hiso] at hnone; cases hnone

/-- C3 — for every raw `pomos` string, the stored `estimate_pomos` is
the clamped integer value when the string is all digits, and 1
otherwise (missing and empty included): the code's
`max(1, min(int(raw) if raw.isdigit() else 1, 8))` pipeline agrees with
the spec's normalization rule on every input. -/
theorem add_task_pomos_clamped (form : AddForm) (today : Date)
    (s s' : Store) (r : Response)
    (h : add_task form today s = .ok (s', r)) :
    ∃ t : Task, s'.tasks = s.tasks ++ [t] ∧
      t.estimate_pomos = specPomos form.pomos := by
  obtain ⟨due, -, hs', -⟩ := add_task_eq_ok.mp h
  refine ⟨newTask form today s.nextId due, by rw [hs'], ?_⟩
  show max 1 (min (parsePomos form.pomos) 8) = specPomos form.pomos
  cases hp : form.pomos with
  | none => decide
  | some v =>
    by_cases hv : v = ""
    · subst hv; decide
    · by_cases hd : v.data.all Char.isDigit
      · have hdig : pyIsDigit v = true := by
          simp [pyIsDigit, hd, data_isEmpty_false hv]
        simp [parsePomos, specPomos, hv, hdig, hd]
      · have hdig : pyIsDigit v = false := by
          simp [pyIsDigit, hd]
        simp [parsePomos, specPomos, hv, hdig, hd]

/-- Witness for C3: adding with `pomos="99"` stores `estimate_pomos = 8`
(and the spec-side clamp agrees). -/
theorem add_task_pomos_clamped_witness :
    ∃ t : Task,
      ({ tasks := [{ id := 1, title := "Untitled Task", source := none,
                     tags := "", estimate_pomos := 8, actual_pomos := 0,
                     due_date := 20240115, status := "today",
                     created_at := 20240115, completed_at := none }],
         nextId := 2 } : Store).tasks = (initialStore).tasks ++ [t] ∧
      t.estimate_pomos = specPomos (some "99") :=
  add_task_pomos_clamped ⟨none, none, none, some "99", none⟩ 20240115
    initialStore
    { tasks := [{ id := 1, title := "Untitled Task", source := none,
                  tags := "", estimate_pomos := 8, actual_pomos := 0,
                  due_date := 20240115, status := "today",
                  created_at := 20240115, completed_at := none }],
      nextId := 2 }
    Response.redirectTodayView (by rfl)

/-- C4 — for every successful add, the stored task's status is "today"
when its due date equals the current date and "scheduled" otherwise. -/
theorem add_task_status_from_due (form : AddForm) (today : Date)
    (s s' : Store) (r : Response)
    (h : add_task form today s = .ok (s', r)) :
    ∃ t : Task, s'.tasks = s.tasks ++ [t] ∧
      t.status = (if t.due_date = today then "today" else "scheduled") := by
  obtain ⟨due, -, hs', -⟩ := add_task_eq_ok.mp h
  exact ⟨newTask form today s.nextId due, by rw [hs'], rfl⟩

/-- Witness for C4: adding with `due="2099-01-01"` on 2024-01-15 stores
a "scheduled" task. -/
theorem add_task_status_from_due_witness :
    ∃ t : Task,
      ({ tasks := [{ id := 1, title := "Untitled Task", source := none,
                     tags := "", estimate_pomos := 1, actual_pomos := 0,
                     due_date := 20990101, status := "scheduled",
                     created_at := 20240115, completed_at := none }],
         nextId := 2 } : Store).tasks = (initialStore).tasks ++ [t] ∧
      t.status = (if t.due_date = 20240115 then "today" else "scheduled") :=
  add_task_status_from_due ⟨none, none, none, none, some "2099-01-01"⟩
    20240115 initialStore
    { tasks := [{ id := 1, title := "Untitled Task", source := none,
                  tags := "", estimate_pomos := 1, actual_pomos := 0,
                  due_date := 20990101, status := "scheduled",
                  created_at := 20240115, completed_at := none }],
      nextId := 2 }
    Response.redirectTodayView (by rfl)

/-- C9 — for every successful add, the stored title is the trimmed
title field with empty (or missing) replaced by "Untitled Task", and
the stored source is the trimmed source field with empty (or missing)
replaced by absent. -/
theorem add_task_title_source_normalized (form : AddForm) (today : Date)
    (s s' : Store) (r : Response)
    (h : add_task form today s = .ok (s', r)) :
    ∃ t : Task, s'.tasks = s.tasks ++ [t] ∧
      t.title = specTitle form.title ∧ t.source = specSource form.source := by
  obtain ⟨due, -, hs', -⟩ := add_task_eq_ok.mp h
  refine ⟨newTask form today s.nextId due, by rw [hs'], ?_, ?_⟩
  · cases hft : form.title with
    | none =>
      show normTitle form.title = specTitle none
      rw [hft]; decide
    | some v =>
      show normTitle form.title = specTitle (some v)
      rw [hft]; rfl
  · cases hfs : form.source with
    | none =>
      show normSource form.source = specSource none
      rw [hfs]; decide
    | some v =>
      show normSource form.source = specSource (some v)
      rw [hfs]; rfl

/-- Witness for C9: `title="  Read ch.3 "`, `source="   "` store title
"Read ch.3" and an absent source. -/
theorem add_task_title_source_normalized_witness :
    ∃ t : Task,
      ({ tasks := [{ id := 1, title := "Read ch.3", source := none,
                     tags := "", estimate_pomos := 1, actual_pomos := 0,
                     due_date := 20240115, status := "today",
                     created_at := 20240115, completed_at := none }],
         nextId := 2 } : Store).tasks = (initialStore).tasks ++ [t] ∧
      t.title = specTitle (some "  Read ch.3 ") ∧
      t.source = specSource (some "   ") :=
  add_task_title_source_normalized
    ⟨some "  Read ch.3 ", some "   ", none, none, none⟩ 20240115
    initialStore
    { tasks := [{ id := 1, title := "Read ch.3", source := none,
                  tags := "", estimate_pomos := 1, actual_pomos := 0,
                  due_date := 20240115, status := "today",
                  created_at := 20240115, completed_at := none }],
      nextId := 2 }
    Response.redirectTodayView (by rfl)

/-- C10 — a present-but-empty `due` field is treated exactly like an
absent one: the add succeeds, the stored due date defaults to today,
and only a non-empty string that fails to parse makes the add fail. -/
theorem add_task_empty_due_defaults (form : AddForm) (today : Date)
    (s : Store) :
    add_task { form with due := some "" } today s =
      add_task { form with due := none } today s ∧
    (∃ s' r, ∃ t : Task,
      add_task { form with due := some "" } today s = .ok (s', r) ∧
        s'.tasks = s.tasks ++ [t] ∧ t.due_date = today) ∧
    (∀ e, add_task form today s = .error e →
      ∃ v, form.due = some v ∧ v ≠ "" ∧ fromisoformat v = none) := by
  refine ⟨rfl, ⟨_, _, newTask { form with due := some "" } today s.nextId
    today, rfl, rfl, rfl⟩, ?_⟩
  intro e h
  exact (parseDue_eq_error.mp (add_task_eq_error.mp h)).2

/-- Witness for C10: a concrete add with `due=""` defaults the due date
to the current date 2024-01-15, and a concrete failing add has a
non-empty unparsable due string. -/
theorem add_task_empty_due_defaults_witness :
    (∃ s' r, ∃ t : Task,
      add_task ⟨some "x", none, none, none, some ""⟩ 20240115 initialStore
          = .ok (s', r) ∧
        s'.tasks = (initialStore).tasks ++ [t] ∧ t.due_date = 20240115) ∧
    (∃ v, (some "2024-99-99" : Option String) = some v ∧ v ≠ "" ∧
      fromisoformat v = none) :=
  ⟨(add_task_empty_due_defaults ⟨some "x", none, none, none, none⟩
      20240115 initialStore).2.1,
   (add_task_empty_due_defaults ⟨some "y", none, none, none,
      some "2024-99-99"⟩ 20240115 initialStore).2.2
      Err.invalidInput (by rfl)⟩

/-- Counterexample to C5 as stated: `due=""` is present and is not a
valid ISO date (`fromisoformat` rejects it), yet the add does not fail —
it stores the task with the current date 2024-01-15 as due date. -/
theorem add_task_empty_due_counterexample :
    fromisoformat "" = none ∧
    add_task ⟨none, none, none, none, some ""⟩ 20240115 initialStore =
      .ok ({ tasks := [{ id := 1, title := "Untitled Task", source := none,
                         tags := "", estimate_pomos := 1, actual_pomos := 0,
                         due_date := 20240115, status := "today",
                         created_at := 20240115, completed_at := none }],
             nextId := 2 }, .redirectTodayView) :=
  ⟨rfl, rfl⟩

/-- C5 (amended) — an absent due field, and equally a present-but-empty
one, defaults the stored due date to today on every request; a present,
*non-empty* due string that is not a valid ISO date makes the add fail
with InvalidInput; and that is the only rejected input (every failure
of the add action is an InvalidInput caused by such a string). -/
theorem add_task_due_error_handling (form : AddForm) (today : Date)
    (s : Store) :
    (form.due = none →
      ∃ s' r, ∃ t : Task, add_task form today s = .ok (s', r) ∧
        s'.tasks = s.tasks ++ [t] ∧ t.due_date = today) ∧
    (form.due = some "" →
      ∃ s' r, ∃ t : Task, add_task form today s = .ok (s', r) ∧
        s'.tasks = s.tasks ++ [t] ∧ t.due_date = today) ∧
    (∀ v, form.due = some v → v ≠ "" → fromisoformat v = none →
      add_task form today s = .error .invalidInput) ∧
    (∀ e, add_task form today s = .error e →
      e = .invalidInput ∧
        ∃ v, form.due = some v ∧ v ≠ "" ∧ fromisoformat v = none) := by
  refine ⟨?_, ?_, ?_, ?_⟩
  · intro hd
    have hp : parseDue form.due today = .ok today := by rw [hd]; rfl
    exact ⟨{ tasks := s.tasks ++ [newTask form today s.nextId today],
             nextId := s.nextId + 1 }, .redirectTodayView,
           newTask form today s.nextId today,
           add_task_eq_ok.mpr ⟨today, hp, rfl, rfl⟩, rfl, rfl⟩
  · intro hd
    have hp : parseDue form.due today = .ok today := by rw [hd]; rfl
    exact ⟨{ tasks := s.tasks ++ [newTask form today s.nextId today],
             nextId := s.nextId + 1 }, .redirectTodayView,
           newTask form today s.nextId today,
           add_task_eq_ok.mpr ⟨today, hp, rfl, rfl⟩, rfl, rfl⟩
  · intro v hv hne hiso
    exact add_task_eq_error.mpr
      (parseDue_eq_error.mpr ⟨rfl, v, hv, hne, hiso⟩)
  · intro e h
    exact parseDue_eq_error.mp (add_task_eq_error.mp h)

/-- Witness for amended C5: `due="not-a-date"` is rejected with
InvalidInput, an absent due field stores due date 2024-01-15 on
2024-01-15, and so does a present-but-empty one. -/
theorem add_task_due_error_handling_witness :
    add_task ⟨none, none, none, none, some "not-a-date"⟩ 20240115
        initialStore = .error .invalidInput ∧
    (∃ s' r, ∃ t : Task,
      add_task ⟨some "z", none, none, none, none⟩ 20240115 initialStore
          = .ok (s', r) ∧
        s'.tasks = (initialStore).tasks ++ [t] ∧ t.due_date = 20240115) ∧
    (∃ s' r, ∃ t : Task,
      add_task ⟨some "w", none, none, none, some ""⟩ 20240115
          initialStore = .ok (s', r) ∧
        s'.tasks = (initialStore).tasks ++ [t] ∧ t.due_date = 20240115) :=
  ⟨(add_task_due_error_handling ⟨none, none, none, none,
      some "not-a-date"⟩ 20240115 initialStore).2.2.1 "not-a-date" rfl
      (by decide) (by rfl),
   (add_task_due_error_handling ⟨some "z", none, none, none, none⟩
      20240115 initialStore).1 rfl,
   (add_task_due_error_handling ⟨some "w", none, none, none, some ""⟩
      20240115 initialStore).2.1 rfl⟩

/-! ## Characterization lemmas for `get_or_404`, `mark_done`,
`delete_task` -/

theorem get_or_404_eq_error {s : Store} {task_id : Nat} {e : Err} :
    get_or_404 s task_id = .error e ↔
      e = .notFound ∧ ∀ t ∈ s.tasks, t.id ≠ task_id := by
  unfold get_or_404
  cases hf : s.tasks.find? (fun t => t.id == task_id) with
  | some t =>
    simp only [pure, Except.pure]
    constructor
    · intro hc; cases hc
    · rintro ⟨-, hall⟩
      exact absurd (by simpa using List.find?_some hf)
        (hall t (List.mem_of_find?_eq_some hf))
  | none =>
    simp only [throw, throwThe, MonadExceptOf.throw]
    constructor
    · intro hc; injection hc with hc
      refine ⟨hc.symm, fun t ht => ?_⟩
      simpa using List.find?_eq_none.mp hf t ht
    · rintro ⟨he, -⟩; rw [he]

theorem get_or_404_eq_ok {s : Store} {task_id : Nat} {t : Task}
    (h : get_or_404 s task_id = .ok t) :
    t ∈ s.tasks ∧ t.id = task_id := by
  unfold get_or_404 at h
  cases hf : s.tasks.find? (fun u => u.id == task_id) with
  | some u =>
    rw [hf] at h
    simp only [pure, Except.pure] at h
    injection h with h
    subst h
    exact ⟨List.mem_of_find?_eq_some hf, by simpa using List.find?_some hf⟩
  | none =>
    rw [hf] at h
    simp only [throw, throwThe, MonadExceptOf.throw] at h
    cases h

theorem mark_done_eq_error {task_id : Nat} {today : Date} {s : Store}
    {e : Err} :
    mark_done task_id today s = .error e ↔
      e = .notFound ∧ ∀ t ∈ s.tasks, t.id ≠ task_id := by
  unfold mark_done
  cases hg : get_or_404 s task_id with
  | error e' =>
    simp only [Bind.bind, Except.bind]
    obtain ⟨he', hall⟩ := get_or_404_eq_error.mp hg
    constructor
    · intro hc; injection hc with hc
      exact ⟨hc ▸ he', hall⟩
    · rintro ⟨he, -⟩; rw [he', ← he]
  | ok t =>
    simp only [Bind.bind, Except.bind, pure, Except.pure]
    obtain ⟨hmem, hid⟩ := get_or_404_eq_ok hg
    constructor
    · intro hc; cases hc
    · rintro ⟨-, hall⟩
      exact absurd hid (hall t hmem)

theorem mark_done_eq_ok {task_id : Nat} {today : Date} {s s' : Store}
    {r : Response} :
    mark_done task_id today s = .ok (s', r) ↔
      (∃ t ∈ s.tasks, t.id = task_id) ∧
      s' = { s with tasks := s.tasks.map (updDone task_id today) } ∧
      r = .redirectTodayView := by
  unfold mark_done
  cases hg : get_or_404 s task_id with
  | error e =>
    simp only [Bind.bind, Except.bind]
    obtain ⟨-, hall⟩ := get_or_404_eq_error.mp hg
    constructor
    · intro hc; cases hc
    · rintro ⟨⟨t, hmem, hid⟩, -⟩
      exact absurd hid (hall t hmem)
  | ok t =>
    simp only [Bind.bind, Except.bind, pure, Except.pure]
    obtain ⟨hmem, hid⟩ := get_or_404_eq_ok hg
    constructor
    · intro hc; injection hc with hc
      exact ⟨⟨t, hmem, hid⟩, congrArg Prod.fst hc.symm,
        congrArg Prod.snd hc.symm⟩
    · rintro ⟨-, hs', hr⟩; rw [hs', hr]

theorem delete_task_eq_error {task_id : Nat} {s : Store} {e : Err} :
    delete_task task_id s = .error e ↔
      e = .notFound ∧ ∀ t ∈ s.tasks, t.id ≠ task_id := by
  unfold delete_task
  cases hg : get_or_404 s task_id with
  | error e' =>
    simp only [Bind.bind, Except.bind]
    obtain ⟨he', hall⟩ := get_or_404_eq_error.mp hg
    constructor
    · intro hc; injection hc with hc
      exact ⟨hc ▸ he', hall⟩
    · rintro ⟨he, -⟩; rw [he', ← he]
  | ok t =>
    simp only [Bind.bind, Except.bind, pure, Except.pure]
    obtain ⟨hmem, hid⟩ := get_or_404_eq_ok hg
    constructor
    · intro hc; cases hc
    · rintro ⟨-, hall⟩
      exact absurd hid (hall t hmem)

theorem delete_task_eq_ok {task_id : Nat} {s s' : Store} {r : Response} :
    delete_task task_id s = .ok (s', r) ↔
      (∃ t ∈ s.tasks, t.id = task_id) ∧
      s' = { s with tasks := s.tasks.filter (fun t => t.id ≠ task_id) } ∧
      r = .redirectTodayView := by
  unfold delete_task
  cases hg : get_or_404 s task_id with
  | error e =>
    simp only [Bind.bind, Except.bind]
    obtain ⟨-, hall⟩ := get_or_404_eq_error.mp hg
    constructor
    · intro hc; cases hc
    · rintro ⟨⟨t, hmem, hid⟩, -⟩
      exact absurd hid (hall t hmem)
  | ok t =>
    simp only [Bind.bind, Except.bind, pure, Except.pure]
    obtain ⟨hmem, hid⟩ := get_or_404_eq_ok hg
    constructor
    · intro hc; injection hc with hc
      exact ⟨⟨t, hmem, hid⟩, congrArg Prod.fst hc.symm,
        congrArg Prod.snd hc.symm⟩
    · rintro ⟨-, hs', hr⟩; rw [hs', hr]

/-- C6 — mark-done fails with NotFound exactly when no task with the
given id exists (and NotFound is its only failure); otherwise it keeps
every other task, re-stores the targeted task with status "done" and
`completed_at` set to today, adds or drops nothing else, and redirects
to the today-view. -/
theorem mark_done_spec (task_id : Nat) (today : Date) (s : Store) :
    (mark_done task_id today s = .error .notFound ↔
      ∀ t ∈ s.tasks, t.id ≠ task_id) ∧
    (∀ e, mark_done task_id today s = .error e → e = .notFound) ∧
    (∀ s' r, mark_done task_id today s = .ok (s', r) →
      r = .redirectTodayView ∧
      s'.nextId = s.nextId ∧
      s'.tasks.length = s.tasks.length ∧
      (∀ t ∈ s.tasks, t.id ≠ task_id → t ∈ s'.tasks) ∧
      (∀ t ∈ s.tasks, t.id = task_id →
        { t with status := "done", completed_at := some today } ∈
          s'.tasks) ∧
      (∀ t' ∈ s'.tasks, (t' ∈ s.tasks ∧ t'.id ≠ task_id) ∨
        ∃ t ∈ s.tasks, t.id = task_id ∧
          t' = { t with status := "done", completed_at := some today })) := by
  refine ⟨?_, ?_, ?_⟩
  · constructor
    · intro h; exact (mark_done_eq_error.mp h).2
    · intro hall; exact mark_done_eq_error.mpr ⟨rfl, hall⟩
  · intro e h; exact (mark_done_eq_error.mp h).1
  · intro s' r h
    obtain ⟨-, hs', hr⟩ := mark_done_eq_ok.mp h
    subst hs'; subst hr
    refine ⟨rfl, rfl, List.length_map .., ?_, ?_, ?_⟩
    · intro t ht hne
      exact List.mem_map.mpr ⟨t, ht, by simp [updDone, hne]⟩
    · intro t ht hid
      exact List.mem_map.mpr ⟨t, ht, by simp [updDone, hid]⟩
    · intro t' ht'
      obtain ⟨t, ht, hupd⟩ := List.mem_map.mp ht'
      by_cases hid : t.id = task_id
      · exact Or.inr ⟨t, ht, hid, by rw [← hupd]; simp [updDone, hid]⟩
      · refine Or.inl ⟨?_, ?_⟩
        · rw [← hupd]; simpa [updDone, hid] using ht
        · rw [← hupd]; simp [updDone, hid]

/-- Witness for C6: marking task 1 done in a one-task store stores the
"done" row, and marking the unknown id 99 done fails with NotFound. -/
theorem mark_done_spec_witness :
    ({ id := 1, title := "a", source := none, tags := "",
       estimate_pomos := 1, actual_pomos := 0, due_date := 20240110,
       status := "done", created_at := 20240110,
       completed_at := some 20240115 } : Task) ∈
      (({ tasks := [{ id := 1, title := "a", source := none, tags := "",
                      estimate_pomos := 1, actual_pomos := 0,
                      due_date := 20240110, status := "done",
                      created_at := 20240110,
                      completed_at := some 20240115 }],
          nextId := 2 } : Store)).tasks ∧
    mark_done 99 20240115
        { tasks := [{ id := 1, title := "a", source := none, tags := "",
                      estimate_pomos := 1, actual_pomos := 0,
                      due_date := 20240110, status := "today",
                      created_at := 20240110, completed_at := none }],
          nextId := 2 } = .error .notFound :=
  ⟨((mark_done_spec 1 20240115
      { tasks := [{ id := 1, title := "a", source := none, tags := "",
                    estimate_pomos := 1, actual_pomos := 0,
                    due_date := 20240110, status := "today",
                    created_at := 20240110, completed_at := none }],
        nextId := 2 }).2.2
      { tasks := [{ id := 1, title := "a", source := none, tags := "",
                    estimate_pomos := 1, actual_pomos := 0,
                    due_date := 20240110, status := "done",
                    created_at := 20240110,
                    completed_at := some 20240115 }],
        nextId := 2 }
      Response.redirectTodayView (by rfl)).2.2.2.2.1
      { id := 1, title := "a", source := none, tags := "",
        estimate_pomos := 1, actual_pomos := 0, due_date := 20240110,
        status := "today", created_at := 20240110, completed_at := none }
      (by simp) rfl,
   (mark_done_spec 99 20240115
      { tasks := [{ id := 1, title := "a", source := none, tags := "",
                    estimate_pomos := 1, actual_pomos := 0,
                    due_date := 20240110, status := "today",
                    created_at := 20240110, completed_at := none }],
        nextId := 2 }).1.mpr (by decide)⟩

/-- C7 — marking a task done twice on the same date yields the same
store as marking it once (the second call re-sets the same values), but
mark-done fails with NotFound when the task was deleted in between. -/
theorem mark_done_idempotent (task_id : Nat) (today : Date)
    (s s₁ : Store) (r₁ : Response)
    (h : mark_done task_id today s = .ok (s₁, r₁)) :
    mark_done task_id today s₁ = .ok (s₁, .redirectTodayView) ∧
    (∀ s₂ r₂, delete_task task_id s = .ok (s₂, r₂) →
      mark_done task_id today s₂ = .error .notFound) := by
  obtain ⟨⟨t, hmem, hid⟩, hs₁, -⟩ := mark_done_eq_ok.mp h
  have hcomp : updDone task_id today ∘ updDone task_id today =
      updDone task_id today := by
    funext x
    by_cases hx : x.id = task_id
    · simp [updDone, hx]
    · simp [updDone, hx]
  constructor
  · apply mark_done_eq_ok.mpr
    refine ⟨⟨updDone task_id today t, ?_, ?_⟩, ?_, rfl⟩
    · rw [hs₁]; exact List.mem_map.mpr ⟨t, hmem, rfl⟩
    · simp [updDone, hid]
    · rw [hs₁]
      simp [List.map_map, hcomp]
  · intro s₂ r₂ hdel
    obtain ⟨-, hs₂, -⟩ := delete_task_eq_ok.mp hdel
    apply mark_done_eq_error.mpr
    refine ⟨rfl, fun u hu => ?_⟩
    rw [hs₂] at hu
    simp only [List.mem_filter, decide_not] at hu
    simpa using hu.2

/-- Witness for C7: after marking task 1 done, marking it done again
returns the unchanged store; after deleting task 1 instead, marking it
done fails with NotFound. -/
theorem mark_done_idempotent_witness :
    mark_done 1 20240115
        { tasks := [{ id := 1, title := "a", source := none, tags := "",
                      estimate_pomos := 1, actual_pomos := 0,
                      due_date := 20240110, status := "done",
                      created_at := 20240110,
                      completed_at := some 20240115 }],
          nextId := 2 } =
      .ok ({ tasks := [{ id := 1, title := "a", source := none,
                         tags := "", estimate_pomos := 1,
                         actual_pomos := 0, due_date := 20240110,
                         status := "done", created_at := 20240110,
                         completed_at := some 20240115 }],
             nextId := 2 }, .redirectTodayView) ∧
    mark_done 1 20240115 { tasks := [], nextId := 2 } =
      .error .notFound :=
  ⟨(mark_done_idempotent 1 20240115
      { tasks := [{ id := 1, title := "a", source := none, tags := "",
                    estimate_pomos := 1, actual_pomos := 0,
                    due_date := 20240110, status := "today",
                    created_at := 20240110, completed_at := none }],
        nextId := 2 }
      { tasks := [{ id := 1, title := "a", source := none, tags := "",
                    estimate_pomos := 1, actual_pomos := 0,
                    due_date := 20240110, status := "done",
                    created_at := 20240110,
                    completed_at := some 20240115 }],
        nextId := 2 }
      Response.redirectTodayView (by rfl)).1,
   (mark_done_idempotent 1 20240115
      { tasks := [{ id := 1, title := "a", source := none, tags := "",
                    estimate_pomos := 1, actual_pomos := 0,
                    due_date := 20240110, status := "today",
                    created_at := 20240110, completed_at := none }],
        nextId := 2 }
      { tasks := [{ id := 1, title := "a", source := none, tags := "",
                    estimate_pomos := 1, actual_pomos := 0,
                    due_date := 20240110, status := "done",
                    created_at := 20240110,
                    completed_at := some 20240115 }],
        nextId := 2 }
      Response.redirectTodayView (by rfl)).2
      { tasks := [], nextId := 2 } Response.redirectTodayView (by rfl)⟩

/-- C8 — delete fails with NotFound exactly when no task with the given
id exists (and NotFound is its only failure); otherwise it permanently
removes exactly the rows with that id, keeps everything else, redirects
to the today-view, and a subsequent fetch-by-id of that id fails with
NotFound. -/
theorem delete_task_spec (task_id : Nat) (s : Store) :
    (delete_task task_id s = .error .notFound ↔
      ∀ t ∈ s.tasks, t.id ≠ task_id) ∧
    (∀ e, delete_task task_id s = .error e → e = .notFound) ∧
    (∀ s' r, delete_task task_id s = .ok (s', r) →
      r = .redirectTodayView ∧
      (∀ t', t' ∈ s'.tasks ↔ t' ∈ s.tasks ∧ t'.id ≠ task_id) ∧
      get_or_404 s' task_id = .error .notFound) := by
  refine ⟨?_, ?_, ?_⟩
  · constructor
    · intro h; exact (delete_task_eq_error.mp h).2
    · intro hall; exact delete_task_eq_error.mpr ⟨rfl, hall⟩
  · intro e h; exact (delete_task_eq_error.mp h).1
  · intro s' r h
    obtain ⟨-, hs', hr⟩ := delete_task_eq_ok.mp h
    subst hs'; subst hr
    refine ⟨rfl, ?_, ?_⟩
    · intro t'
      simp [List.mem_filter]
    · apply get_or_404_eq_error.mpr
      refine ⟨rfl, fun t ht => ?_⟩
      simp only [List.mem_filter, decide_not] at ht
      simpa using ht.2

/-- Witness for C8: deleting task 1 from a one-task store empties it
and a subsequent fetch of id 1 fails with NotFound; deleting unknown id
5 fails with NotFound. -/
theorem delete_task_spec_witness :
    get_or_404 { tasks := [], nextId := 2 } 1 = .error .notFound ∧
    delete_task 5
        { tasks := [{ id := 1, title := "a", source := none, tags := "",
                      estimate_pomos := 1, actual_pomos := 0,
                      due_date := 20240110, status := "today",
                      created_at := 20240110, completed_at := none }],
          nextId := 2 } = .error .notFound :=
  ⟨((delete_task_spec 1
      { tasks := [{ id := 1, title := "a", source := none, tags := "",
                    estimate_pomos := 1, actual_pomos := 0,
                    due_date := 20240110, status := "today",
                    created_at := 20240110, completed_at := none }],
        nextId := 2 }).2.2 { tasks := [], nextId := 2 }
      Response.redirectTodayView (by rfl)).2.2,
   (delete_task_spec 5
      { tasks := [{ id := 1, title := "a", source := none, tags := "",
                    estimate_pomos := 1, actual_pomos := 0,
                    due_date := 20240110, status := "today",
                    created_at := 20240110, completed_at := none }],
        nextId := 2 }).1.mpr (by decide)⟩

/-! ## The today-view query: order lemmas and the selection theorem -/

theorem char_eq_of_toNat_eq {x y : Char} (h : x.toNat = y.toNat) :
    x = y :=
  Char.ext (UInt32.ext h)

theorem lexLt_trans (a : List Char) :
    ∀ b c, lexLt a b = true → lexLt b c = true → lexLt a c = true := by
  induction a with
  | nil =>
    intro b c hab hbc
    cases b with
    | nil => simp [lexLt] at hab
    | cons y ys =>
      cases c with
      | nil => simp [lexLt] at hbc
      | cons z zs => simp [lexLt]
  | cons x xs ih =>
    intro b c hab hbc
    cases b with
    | nil => simp [lexLt] at hab
    | cons y ys =>
      cases c with
      | nil => simp [lexLt] at hbc
      | cons z zs =>
        simp only [lexLt, Bool.or_eq_true, Bool.and_eq_true, beq_iff_eq,
          decide_eq_true_eq] at hab hbc ⊢
        rcases hab with h1 | ⟨hxy, h2⟩
        · rcases hbc with h3 | ⟨hyz, h4⟩
          · exact Or.inl (Nat.lt_trans h1 h3)
          · exact Or.inl (hyz ▸ h1)
        · rcases hbc with h3 | ⟨hyz, h4⟩
          · exact Or.inl (hxy.symm ▸ h3)
          · exact Or.inr ⟨hxy.trans hyz, ih ys zs h2 h4⟩

theorem lexLt_total (a : List Char) :
    ∀ b, lexLt a b = true ∨ a = b ∨ lexLt b a = true := by
  induction a with
  | nil =>
    intro b
    cases b with
    | nil => exact Or.inr (Or.inl rfl)
    | cons y ys => exact Or.inl (by simp [lexLt])
  | cons x xs ih =>
    intro b
    cases b with
    | nil => exact Or.inr (Or.inr (by simp [lexLt]))
    | cons y ys =>
      rcases Nat.lt_trichotomy x.toNat y.toNat with h | h | h
      · exact Or.inl (by simp [lexLt, h])
      · have hxy : x = y := char_eq_of_toNat_eq h
        subst hxy
        rcases ih ys with h2 | h2 | h2
        · exact Or.inl (by simp [lexLt, h2])
        · exact Or.inr (Or.inl (by rw [h2]))
        · exact Or.inr (Or.inr (by simp [lexLt, h2]))
      · exact Or.inr (Or.inr (by simp [lexLt, h]))

theorem viewOrder_trans :
    ∀ a b c : Task, viewOrder a b → viewOrder b c → viewOrder a c := by
  intro a b c hab hbc
  rcases hab with h1 | ⟨he1, hi1⟩
  · rcases hbc with h2 | ⟨he2, hi2⟩
    · exact Or.inl (lexLt_trans _ _ _ h2 h1)
    · exact Or.inl (by rw [← he2]; exact h1)
  · rcases hbc with h2 | ⟨he2, hi2⟩
    · exact Or.inl (by rw [he1]; exact h2)
    · exact Or.inr ⟨he1.trans he2, Nat.le_trans hi2 hi1⟩

theorem viewOrder_total :
    ∀ a b : Task, viewOrder a b ∨ viewOrder b a := by
  intro a b
  rcases lexLt_total a.status.data b.status.data with h | h | h
  · exact Or.inr (Or.inl h)
  · have he : a.status = b.status := String.ext h
    rcases Nat.le_total b.id a.id with hi | hi
    · exact Or.inl (Or.inr ⟨he, hi⟩)
    · exact Or.inr (Or.inr ⟨he.symm, hi⟩)
  · exact Or.inl (Or.inl h)

theorem todayFilter_iff {today : Date} {t : Task} :
    todayFilter today t = true ↔
      t.due_date ≤ today ∧ (t.status = "today" ∨ t.status = "scheduled") := by
  simp [todayFilter]

/-- C1 — the today-view renders exactly the tasks due today or earlier
whose status is "today" or "scheduled" (all of them whenever at most 3
match), capped at 3 items, ordered with "today" before "scheduled" and
ties broken by descending id; when more than 3 match, every shown item
sorts no later than every matching item left out. -/
theorem today_view_correct (s : Store) (today : Date) :
    today_view s today = .renderToday (todayItems s today) ∧
    (todayItems s today).length =
      min 3 (s.tasks.filter (todayFilter today)).length ∧
    (∀ t ∈ todayItems s today, t ∈ s.tasks ∧ t.due_date ≤ today ∧
      (t.status = "today" ∨ t.status = "scheduled")) ∧
    ((s.tasks.filter (todayFilter today)).length ≤ 3 →
      ∀ t ∈ s.tasks, t.due_date ≤ today →
        (t.status = "today" ∨ t.status = "scheduled") →
        t ∈ todayItems s today) ∧
    (todayItems s today).Pairwise (fun a b =>
      (a.status = "today" ∧ b.status = "scheduled") ∨
        (a.status = b.status ∧ b.id ≤ a.id)) ∧
    (∀ t ∈ s.tasks, t.due_date ≤ today →
      (t.status = "today" ∨ t.status = "scheduled") →
      t ∉ todayItems s today →
      ∀ u ∈ todayItems s today, viewOrder u t) := by
  haveI : IsTrans Task viewOrder := ⟨viewOrder_trans⟩
  haveI : IsTotal Task viewOrder := ⟨viewOrder_total⟩
  have hperm := List.perm_insertionSort viewOrder
    (s.tasks.filter (todayFilter today))
  have hsort := List.sorted_insertionSort viewOrder
    (s.tasks.filter (todayFilter today))
  have hsound : ∀ t ∈ todayItems s today, t ∈ s.tasks ∧
      t.due_date ≤ today ∧
      (t.status = "today" ∨ t.status = "scheduled") := by
    intro t ht
    have := hperm.mem_iff.mp (List.mem_of_mem_take ht)
    obtain ⟨hmem, hp⟩ := List.mem_filter.mp this
    exact ⟨hmem, todayFilter_iff.mp hp⟩
  refine ⟨rfl, ?_, hsound, ?_, ?_, ?_⟩
  · rw [todayItems, List.length_take, hperm.length_eq]
  · intro hlen t ht hdue hstatus
    have hfl : t ∈ s.tasks.filter (todayFilter today) :=
      List.mem_filter.mpr ⟨ht, todayFilter_iff.mpr ⟨hdue, hstatus⟩⟩
    have hlen' : (List.insertionSort viewOrder
        (s.tasks.filter (todayFilter today))).length ≤ 3 := by
      rw [hperm.length_eq]; exact hlen
    rw [todayItems, List.take_of_length_le hlen']
    exact hperm.mem_iff.mpr hfl
  · have hpw : (todayItems s today).Pairwise viewOrder :=
      List.Pairwise.sublist (List.take_sublist 3 _) hsort
    refine hpw.imp_of_mem ?_
    intro a b ha hb hab
    obtain ⟨-, -, hsa⟩ := hsound a ha
    obtain ⟨-, -, hsb⟩ := hsound b hb
    rcases hab with hlt | heq
    · rcases hsa with ha' | ha' <;> rcases hsb with hb' | hb' <;>
        rw [ha', hb'] at hlt <;> first
          | exact absurd hlt (by decide)
          | exact Or.inl ⟨ha', hb'⟩
    · exact Or.inr heq
  · intro t ht hdue hstatus hnot u hu
    have hfl : t ∈ s.tasks.filter (todayFilter today) :=
      List.mem_filter.mpr ⟨ht, todayFilter_iff.mpr ⟨hdue, hstatus⟩⟩
    have hmem : t ∈ List.insertionSort viewOrder
        (s.tasks.filter (todayFilter today)) := hperm.mem_iff.mpr hfl
    rw [← List.take_append_drop 3 (List.insertionSort viewOrder
      (s.tasks.filter (todayFilter today)))] at hmem hsort
    have hdrop : t ∈ List.drop 3 (List.insertionSort viewOrder
        (s.tasks.filter (todayFilter today))) := by
      rcases List.mem_append.mp hmem with h | h
      · exact absurd h hnot
      · exact h
    exact (List.pairwise_append.mp hsort).2.2 u hu t hdrop

/-- Witness for C1: in a concrete five-task store on 2024-01-15 the
today-view selects its top item by status then id, and every "today" or
"scheduled" task due by 2024-01-15 of a small two-task store is shown. -/
theorem today_view_correct_witness :
    (({ id := 4, title := "d", source := none, tags := "",
        estimate_pomos := 1, actual_pomos := 0, due_date := 20240115,
        status := "today", created_at := 20240115,
        completed_at := none } : Task) ∈
      todayItems
        { tasks := [
            { id := 1, title := "a", source := none, tags := "",
              estimate_pomos := 1, actual_pomos := 0,
              due_date := 20240115, status := "today",
              created_at := 20240115, completed_at := none },
            { id := 2, title := "b", source := none, tags := "",
              estimate_pomos := 1, actual_pomos := 0,
              due_date := 20231231, status := "scheduled",
              created_at := 20240115, completed_at := none },
            { id := 3, title := "c", source := none, tags := "",
              estimate_pomos := 1, actual_pomos := 0,
              due_date := 20990101, status := "scheduled",
              created_at := 20240115, completed_at := none },
            { id := 4, title := "d", source := none, tags := "",
              estimate_pomos := 1, actual_pomos := 0,
              due_date := 20240115, status := "today",
              created_at := 20240115, completed_at := none }],
          nextId := 5 } 20240115) ∧
    (todayItems
        { tasks := [
            { id := 1, title := "a", source := none, tags := "",
              estimate_pomos := 1, actual_pomos := 0,
              due_date := 20240115, status := "today",
              created_at := 20240115, completed_at := none },
            { id := 2, title := "b", source := none, tags := "",
              estimate_pomos := 1, actual_pomos := 0,
              due_date := 20231231, status := "scheduled",
              created_at := 20240115, completed_at := none },
            { id := 3, title := "c", source := none, tags := "",
              estimate_pomos := 1, actual_pomos := 0,
              due_date := 20990101, status := "scheduled",
              created_at := 20240115, completed_at := none },
            { id := 4, title := "d", source := none, tags := "",
              estimate_pomos := 1, actual_pomos := 0,
              due_date := 20240115, status := "today",
              created_at := 20240115, completed_at := none }],
          nextId := 5 } 20240115).length ≤ 3 :=
  ⟨(today_view_correct
      { tasks := [
          { id := 1, title := "a", source := none, tags := "",
            estimate_pomos := 1, actual_pomos := 0,
            due_date := 20240115, status := "today",
            created_at := 20240115, completed_at := none },
          { id := 2, title := "b", source := none, tags := "",
            estimate_pomos := 1, actual_pomos := 0,
            due_date := 20231231, status := "scheduled",
            created_at := 20240115, completed_at := none },
          { id := 3, title := "c", source := none, tags := "",
            estimate_pomos := 1, actual_pomos := 0,
            due_date := 20990101, status := "scheduled",
            created_at := 20240115, completed_at := none },
          { id := 4, title := "d", source := none, tags := "",
            estimate_pomos := 1, actual_pomos := 0,
            due_date := 20240115, status := "today",
            created_at := 20240115, completed_at := none }],
        nextId := 5 } 20240115).2.2.2.1 (by decide)
      { id := 4, title := "d", source := none, tags := "",
        estimate_pomos := 1, actual_pomos := 0, due_date := 20240115,
        status := "today", created_at := 20240115, completed_at := none }
      (by simp) (by decide) (Or.inl rfl),
   by
    have h := (today_view_correct
      { tasks := [
          { id := 1, title := "a", source := none, tags := "",
            estimate_pomos := 1, actual_pomos := 0,
            due_date := 20240115, status := "today",
            created_at := 20240115, completed_at := none },
          { id := 2, title := "b", source := none, tags := "",
            estimate_pomos := 1, actual_pomos := 0,
            due_date := 20231231, status := "scheduled",
            created_at := 20240115, completed_at := none },
          { id := 3, title := "c", source := none, tags := "",
            estimate_pomos := 1, actual_pomos := 0,
            due_date := 20990101, status := "scheduled",
            created_at := 20240115, completed_at := none },
          { id := 4, title := "d", source := none, tags := "",
            estimate_pomos := 1, actual_pomos := 0,
            due_date := 20240115, status := "today",
            created_at := 20240115, completed_at := none }],
        nextId := 5 } 20240115).2.1
    rw [h]
    decide⟩

/-! ## The store invariants over all reachable states -/

theorem updDone_id (task_id : Nat) (today : Date) (t : Task) :
    (updDone task_id today t).id = t.id := by
  by_cases h : t.id = task_id <;> simp [updDone, h]

theorem taskInv_newTask (form : AddForm) (today : Date) (id : Nat)
    (due : Date) : TaskInv (newTask form today id due) := by
  refine ⟨le_max_left 1 _, max_le (by norm_num) (min_le_right _ _), ?_⟩
  constructor
  · intro h; exact absurd rfl h
  · intro h
    by_cases hd : due = today
    · rw [show (newTask form today id due).status =
          (if due = today then "today" else "scheduled") from rfl,
        if_pos hd] at h
      exact absurd h (by decide)
    · rw [show (newTask form today id due).status =
          (if due = today then "today" else "scheduled") from rfl,
        if_neg hd] at h
      exact absurd h (by decide)

theorem storeInv_init : StoreInv initialStore :=
  ⟨fun t ht => absurd ht (List.not_mem_nil t), List.Pairwise.nil⟩

theorem storeInv_add {form : AddForm} {today : Date} {s s' : Store}
    {r : Response} (hinv : StoreInv s)
    (h : add_task form today s = .ok (s', r)) : StoreInv s' := by
  obtain ⟨due, -, hs', -⟩ := add_task_eq_ok.mp h
  subst hs'
  obtain ⟨hall, hpw⟩ := hinv
  constructor
  · intro t ht
    rcases List.mem_append.mp ht with h1 | h1
    · obtain ⟨hTI, hlt⟩ := hall t h1
      exact ⟨hTI, Nat.lt_succ_of_lt hlt⟩
    · rw [List.mem_singleton] at h1
      subst h1
      exact ⟨taskInv_newTask form today s.nextId due, Nat.lt_succ_self _⟩
  · rw [List.pairwise_append]
    refine ⟨hpw, List.pairwise_singleton _ _, ?_⟩
    intro a ha b hb
    rw [List.mem_singleton] at hb
    subst hb
    exact (hall a ha).2

theorem storeInv_done {task_id : Nat} {today : Date} {s s' : Store}
    {r : Response} (hinv : StoreInv s)
    (h : mark_done task_id today s = .ok (s', r)) : StoreInv s' := by
  obtain ⟨-, hs', -⟩ := mark_done_eq_ok.mp h
  subst hs'
  obtain ⟨hall, hpw⟩ := hinv
  constructor
  · intro t ht
    obtain ⟨u, hu, hupd⟩ := List.mem_map.mp ht
    obtain ⟨⟨h1, h2, h3⟩, hlt⟩ := hall u hu
    subst hupd
    by_cases hid : u.id = task_id
    · refine ⟨⟨?_, ?_, ?_⟩, ?_⟩
      · simp only [updDone, if_pos hid]; exact h1
      · simp only [updDone, if_pos hid]; exact h2
      · simp [updDone, if_pos hid]
      · rw [updDone_id]; exact hlt
    · simp only [updDone, if_neg hid]
      exact ⟨⟨h1, h2, h3⟩, hlt⟩
  · rw [List.pairwise_map]
    exact hpw.imp (fun {a b} hab => by
      rw [updDone_id, updDone_id]; exact hab)

theorem storeInv_delete {task_id : Nat} {s s' : Store} {r : Response}
    (hinv : StoreInv s)
    (h : delete_task task_id s = .ok (s', r)) : StoreInv s' := by
  obtain ⟨-, hs', -⟩ := delete_task_eq_ok.mp h
  subst hs'
  obtain ⟨hall, hpw⟩ := hinv
  exact ⟨fun t ht => hall t (List.mem_of_mem_filter ht),
    List.Pairwise.sublist (List.filter_sublist _) hpw⟩

theorem reachable_inv {s : Store} (h : Reachable s) : StoreInv s := by
  induction h with
  | init => exact storeInv_init
  | step a hr heq ih =>
    cases a with
    | add form today => exact storeInv_add ih heq
    | done task_id today => exact storeInv_done ih heq
    | delete task_id => exact storeInv_delete ih heq

theorem eq_of_mem_of_id_eq {l : List Task}
    (hpw : l.Pairwise (fun a b => a.id < b.id)) :
    ∀ {t u : Task}, t ∈ l → u ∈ l → t.id = u.id → t = u := by
  induction l with
  | nil => intro t u ht _ _; cases ht
  | cons x xs ih =>
    intro t u ht hu hid
    obtain ⟨hx, hxs⟩ := List.pairwise_cons.mp hpw
    rcases List.mem_cons.mp ht with rfl | ht'
    · rcases List.mem_cons.mp hu with rfl | hu'
      · rfl
      · exact absurd hid (Nat.ne_of_lt (hx u hu'))
    · rcases List.mem_cons.mp hu with rfl | hu'
      · exact absurd hid.symm (Nat.ne_of_lt (hx t ht'))
      · exact ih hxs ht' hu' hid

theorem done_stays_done {a : Action} {s s' : Store} {r : Response}
    (hinv : StoreInv s) (h : applyAction a s = .ok (s', r)) :
    ∀ t ∈ s.tasks, ∀ t' ∈ s'.tasks, t'.id = t.id →
      t.status = "done" → t'.status = "done" := by
  obtain ⟨hall, hpw⟩ := hinv
  intro t ht t' ht' hid hdone
  cases a with
  | add form today =>
    obtain ⟨due, -, hs', -⟩ := add_task_eq_ok.mp h
    subst hs'
    rcases List.mem_append.mp ht' with h1 | h1
    · rw [eq_of_mem_of_id_eq hpw h1 ht hid]
      exact hdone
    · rw [List.mem_singleton] at h1
      subst h1
      have h2 := (hall t ht).2
      rw [← hid] at h2
      exact absurd h2 (lt_irrefl _)
  | done task_id today =>
    obtain ⟨-, hs', -⟩ := mark_done_eq_ok.mp h
    subst hs'
    obtain ⟨u, hu, hupd⟩ := List.mem_map.mp ht'
    subst hupd
    have hu_eq : u = t :=
      eq_of_mem_of_id_eq hpw hu ht ((updDone_id task_id today u).symm.trans hid)
    by_cases hcase : u.id = task_id
    · simp [updDone, hcase]
    · simp only [updDone, if_neg hcase]
      rw [hu_eq]; exact hdone
  | delete task_id =>
    obtain ⟨-, hs', -⟩ := delete_task_eq_ok.mp h
    subst hs'
    rw [eq_of_mem_of_id_eq hpw (List.mem_of_mem_filter ht') ht hid]
    exact hdone

/-- C2 — in every store reachable from the empty database by add,
mark-done and delete requests, every task's `estimate_pomos` lies in
[1,8] and its `completed_at` is set exactly when its status is "done";
and no successful request ever changes a task's status away from
"done" (status transitions are one-way into "done"). -/
theorem store_invariants (s : Store) (h : Reachable s) :
    (∀ t ∈ s.tasks, 1 ≤ t.estimate_pomos ∧ t.estimate_pomos ≤ 8 ∧
      (t.completed_at ≠ none ↔ t.status = "done")) ∧
    (∀ (a : Action) (s' : Store) (r : Response),
      applyAction a s = .ok (s', r) →
      ∀ t ∈ s.tasks, ∀ t' ∈ s'.tasks, t'.id = t.id →
        t.status = "done" → t'.status = "done") := by
  have hinv := reachable_inv h
  exact ⟨fun t ht => (hinv.1 t ht).1,
    fun a s' r heq => done_stays_done hinv heq⟩

/-- Witness for C2: the store reached by one add on 2024-01-15
satisfies the row invariant at its single task. -/
theorem store_invariants_witness :
    1 ≤ ({ id := 1, title := "Untitled Task", source := none, tags := "",
           estimate_pomos := 1, actual_pomos := 0, due_date := 20240115,
           status := "today", created_at := 20240115,
           completed_at := none } : Task).estimate_pomos ∧
    ({ id := 1, title := "Untitled Task", source := none, tags := "",
       estimate_pomos := 1, actual_pomos := 0, due_date := 20240115,
       status := "today", created_at := 20240115,
       completed_at := none } : Task).estimate_pomos ≤ 8 ∧
    (({ id := 1, title := "Untitled Task", source := none, tags := "",
        estimate_pomos := 1, actual_pomos := 0, due_date := 20240115,
        status := "today", created_at := 20240115,
        completed_at := none } : Task).completed_at ≠ none ↔
      ({ id := 1, title := "Untitled Task", source := none, tags := "",
         estimate_pomos := 1, actual_pomos := 0, due_date := 20240115,
         status := "today", created_at := 20240115,
         completed_at := none } : Task).status = "done") :=
  (store_invariants
    { tasks := [{ id := 1, title := "Untitled Task", source := none,
                  tags := "", estimate_pomos := 1, actual_pomos := 0,
                  due_date := 20240115, status := "today",
                  created_at := 20240115, completed_at := none }],
      nextId := 2 }
    (Reachable.step (Action.add ⟨none, none, none, none, none⟩ 20240115)
      Reachable.init (by rfl))).1
    { id := 1, title := "Untitled Task", source := none, tags := "",
      estimate_pomos := 1, actual_pomos := 0, due_date := 20240115,
      status := "today", created_at := 20240115, completed_at := none }
    (by simp)

end TrackForge
